import Mathlib

/-!
Shallow embedding of the numeric core of `stock_correlation(1).py`:
daily returns (`calculate_returns` = `pct_change().dropna()`), rolling
annualized volatility, rolling pairwise Pearson correlation, the two-asset
portfolio-volatility combiner, and the `task2` correlation matrix, together
with the input-validation gates of `task1` and `task2`.

Prices and returns are modelled as lists of exact numbers (`ℚ` where no
square root is needed, `ℝ` elsewhere); a pandas `NaN` entry is modelled as
`none` of an `Option` type.
-/

namespace StockCorrelation

/-- Embedding of `prices.pct_change()` on a single column: entry 0 is `NaN`
(no predecessor), entry `t` (for `t ≥ 1`) is `price[t]/price[t-1] - 1`. -/
def pct_change {K : Type} [Field K] : List K → List (Option K)
  | [] => []
  | p :: ps => none :: ((p :: ps).zip ps).map (fun q => some (q.2 / q.1 - 1))

/-- Embedding of `.dropna()`: keep exactly the defined entries. -/
def dropna {K : Type} (xs : List (Option K)) : List K := xs.filterMap id

/-- Embedding of `calculate_returns(prices)` = `prices.pct_change().dropna()`
from the source, on one symbol column. -/
def calculate_returns {K : Type} [Field K] (prices : List K) : List K :=
  dropna (pct_change prices)

/-- Embedding of `calculate_portfolio_volatility(vol1, vol2, corr, weight1,
weight2)` from the source: the two-asset variance formula under a square
root, with no check on the weights. -/
noncomputable def calculate_portfolio_volatility
    (vol1 vol2 corr weight1 weight2 : ℝ) : ℝ :=
  Real.sqrt (weight1 ^ 2 * vol1 ^ 2 + weight2 ^ 2 * vol2 ^ 2 +
    2 * weight1 * weight2 * vol1 * vol2 * corr)

/-- Sample standard deviation with pandas semantics (`ddof = 1`): undefined
(`NaN`, modelled as `none`) on series of fewer than two points. -/
noncomputable def sampleStd (xs : List ℝ) : Option ℝ :=
  if xs.length < 2 then none
  else some (Real.sqrt
    ((xs.map (fun x => (x - xs.sum / xs.length) ^ 2)).sum / (xs.length - 1)))

/-- Embedding of `calculate_rolling_volatility(returns, window)` =
`returns.rolling(window=window).std() * np.sqrt(252)`: at index `i` the
sample standard deviation of the trailing `window` observations ending at
`i`, annualized; `NaN` (`none`) while fewer than `window` observations have
been seen (pandas default `min_periods = window`). -/
noncomputable def calculate_rolling_volatility
    (returns : List ℝ) (window : ℕ) : List (Option ℝ) :=
  (List.range returns.length).map (fun i =>
    if window ≤ i + 1 then
      Option.map (fun s => s * Real.sqrt 252)
        (sampleStd ((returns.take (i + 1)).drop (i + 1 - window)))
    else none)

/-- Deviations from the mean of a list (the centering step of a Pearson
correlation). -/
noncomputable def demean (xs : List ℝ) : List ℝ :=
  xs.map (fun a => a - xs.sum / xs.length)

/-- Pointwise dot product of two lists (pairs beyond the shorter length are
dropped, as with aligned pandas series of equal length). -/
def dotl (xs ys : List ℝ) : ℝ :=
  ((xs.zip ys).map (fun p => p.1 * p.2)).sum

/-- Pearson correlation coefficient of two aligned lists, with pandas `NaN`
semantics: when either series has zero variance the divisor vanishes and the
result is undefined (`none`). -/
noncomputable def pearson (xs ys : List ℝ) : Option ℝ :=
  if Real.sqrt (dotl (demean xs) (demean xs)) *
      Real.sqrt (dotl (demean ys) (demean ys)) = 0 then none
  else some (dotl (demean xs) (demean ys) /
    (Real.sqrt (dotl (demean xs) (demean xs)) *
      Real.sqrt (dotl (demean ys) (demean ys))))

/-- Embedding of `a.rolling(window=window).corr(b)`: at index `i`, the
Pearson correlation of the trailing `window` observations of the two aligned
series, `NaN` (`none`) while fewer than `window` observations have been
seen. -/
noncomputable def rollingCorr (a b : List ℝ) (window : ℕ) : List (Option ℝ) :=
  (List.range a.length).map (fun i =>
    if window ≤ i + 1 then
      pearson ((a.take (i + 1)).drop (i + 1 - window))
        ((b.take (i + 1)).drop (i + 1 - window))
    else none)

/-- Embedding of `calculate_rolling_correlation(returns, window)` from the
source: when the frame has exactly two columns, the rolling correlation of
the two; otherwise the Python function returns `None`, modelled as `none`. -/
noncomputable def calculate_rolling_correlation
    (returns : List (List ℝ)) (window : ℕ) : Option (List (Option ℝ)) :=
  if returns.length = 2 then
    some (rollingCorr (returns.getD 0 []) (returns.getD 1 []) window)
  else none

/-- Embedding of pandas `DataFrame.tail(n)` on one column: the most recent
`n` observations, truncated without error when fewer are available. -/
def pandas_tail (n : ℕ) (xs : List ℝ) : List ℝ := xs.drop (xs.length - n)

/-- Embedding of `task2`'s `correlation_matrix = returns.tail(30).corr()`
(with the window left as a parameter): the pairwise Pearson correlation
matrix of the most recent `window` observations of the given columns. -/
noncomputable def correlation_matrix
    (cols : List (List ℝ)) (window : ℕ) : List (List (Option ℝ)) :=
  cols.map (fun x => cols.map (fun y =>
    pearson (pandas_tail window x) (pandas_tail window y)))

/-- Observable outcome of one run of `task1`/`task2`: rejected by input
validation, aborted by a fetch exception, or completed normally. -/
inductive TaskOutcome (α : Type) where
  | validationError : TaskOutcome α
  | fetchFailed : TaskOutcome α
  | completed : α → TaskOutcome α
deriving DecidableEq

/-- Embedding of the control skeleton of `task1`: the weight inputs (given
as percentages) are validated first; only when `|w1 + w2 - 100| ≤ 0.01`
does the price fetch run (its failure is the `except` branch), and only on a
successful fetch does the analysis `rest` of the task run. -/
def task1_run {β α : Type} (weight1_input weight2_input : ℚ)
    (fetch : Unit → Except String β) (rest : β → α) : TaskOutcome α :=
  if |weight1_input + weight2_input - 100| > 1 / 100 then .validationError
  else
    match fetch () with
    | .error _ => .fetchFailed
    | .ok prices => .completed (rest prices)

/-- Embedding of the control skeleton of `task2`: the ticker list is
validated first (at most 10 symbols, at least 2); only within those bounds
does the price fetch run, and only on a successful fetch does the analysis
`rest` of the task run. -/
def task2_run {β α : Type} (tickers : List String)
    (fetch : Unit → Except String β) (rest : β → α) : TaskOutcome α :=
  if tickers.length > 10 then .validationError
  else if tickers.length < 2 then .validationError
  else
    match fetch () with
    | .error _ => .fetchFailed
    | .ok prices => .completed (rest prices)

/-! Helper lemmas. -/

theorem filterMap_id_map_some {A B : Type} (f : A → B) :
    ∀ (l : List A), (l.map (fun a => some (f a))).filterMap id = l.map f
  | [] => rfl
  | a :: l => by
      simp [List.filterMap_cons, filterMap_id_map_some f l]

theorem calculate_returns_eq {K : Type} [Field K] (P : List K) :
    calculate_returns P = (P.zip P.tail).map (fun q => q.2 / q.1 - 1) := by
  cases P with
  | nil => rfl
  | cons p ps =>
      unfold calculate_returns pct_change dropna
      rw [List.filterMap_cons]
      exact filterMap_id_map_some _ _

theorem dotl_nil_left (ys : List ℝ) : dotl [] ys = 0 := rfl

theorem dotl_nil_right (xs : List ℝ) : dotl xs [] = 0 := by
  cases xs <;> rfl

theorem dotl_cons (x y : ℝ) (xs ys : List ℝ) :
    dotl (x :: xs) (y :: ys) = x * y + dotl xs ys := by
  simp [dotl]

theorem dotl_comm : ∀ (xs ys : List ℝ), dotl xs ys = dotl ys xs
  | [], ys => by rw [dotl_nil_left, dotl_nil_right]
  | x :: xs, [] => by rw [dotl_nil_left, dotl_nil_right]
  | x :: xs, y :: ys => by
      rw [dotl_cons, dotl_cons, dotl_comm xs ys, mul_comm]

theorem dotl_self_nonneg : ∀ (xs : List ℝ), 0 ≤ dotl xs xs
  | [] => le_refl 0
  | x :: xs => by
      rw [dotl_cons]
      have h := dotl_self_nonneg xs
      nlinarith [mul_self_nonneg x]

/-- One inductive step of the Cauchy-Schwarz inequality for list dot
products. -/
theorem cs_step (x y d X Y : ℝ) (ih : d ^ 2 ≤ X * Y) (hx : 0 ≤ X)
    (hy : 0 ≤ Y) : (x * y + d) ^ 2 ≤ (x * x + X) * (y * y + Y) := by
  rcases eq_or_lt_of_le hy with h0 | hpos
  · have hd : d = 0 := by nlinarith [sq_nonneg d]
    subst hd
    rw [← h0]
    nlinarith [mul_nonneg hx (mul_self_nonneg y)]
  · have key : (x * x + X) * (y * y + Y) * Y - (x * y + d) ^ 2 * Y =
        (x * Y - y * d) ^ 2 + (X * Y - d ^ 2) * (y * y) +
          (X * Y - d ^ 2) * Y := by ring
    nlinarith [sq_nonneg (x * Y - y * d),
      mul_nonneg (sub_nonneg.mpr ih) (mul_self_nonneg y),
      mul_nonneg (sub_nonneg.mpr ih) hy, key, hpos]

/-- Cauchy-Schwarz inequality for list dot products. -/
theorem dotl_sq_le : ∀ (xs ys : List ℝ),
    (dotl xs ys) ^ 2 ≤ dotl xs xs * dotl ys ys
  | [], ys => by simp [dotl_nil_left]
  | x :: xs, [] => by simp [dotl_nil_right]
  | x :: xs, y :: ys => by
      rw [dotl_cons, dotl_cons, dotl_cons]
      exact cs_step x y (dotl xs ys) (dotl xs xs) (dotl ys ys)
        (dotl_sq_le xs ys) (dotl_self_nonneg xs) (dotl_self_nonneg ys)

theorem pearson_comm (xs ys : List ℝ) : pearson xs ys = pearson ys xs := by
  unfold pearson
  rw [dotl_comm (demean xs) (demean ys),
    mul_comm (Real.sqrt (dotl (demean xs) (demean xs)))
      (Real.sqrt (dotl (demean ys) (demean ys)))]

/-- A series correlated with itself gives exactly 1 whenever its centered
dot product (its variance, up to a positive factor) is nonzero. -/
theorem pearson_self (xs : List ℝ)
    (h : dotl (demean xs) (demean xs) ≠ 0) : pearson xs xs = some 1 := by
  unfold pearson
  have hs : Real.sqrt (dotl (demean xs) (demean xs)) *
      Real.sqrt (dotl (demean xs) (demean xs)) =
        dotl (demean xs) (demean xs) :=
    Real.mul_self_sqrt (dotl_self_nonneg (demean xs))
  rw [hs, if_neg h, div_self h]

/-- Every defined Pearson correlation value lies in the interval [-1, 1]. -/
theorem pearson_bounds (xs ys : List ℝ) (c : ℝ)
    (h : pearson xs ys = some c) : -1 ≤ c ∧ c ≤ 1 := by
  unfold pearson at h
  split_ifs at h with hc
  rw [Option.some.injEq] at h
  set sx := Real.sqrt (dotl (demean xs) (demean xs)) with hsx
  set sy := Real.sqrt (dotl (demean ys) (demean ys)) with hsy
  have hpos : 0 < sx * sy :=
    lt_of_le_of_ne (mul_nonneg (Real.sqrt_nonneg _) (Real.sqrt_nonneg _))
      (Ne.symm hc)
  have hsq : (dotl (demean xs) (demean ys)) ^ 2 ≤ (sx * sy) ^ 2 := by
    have hmul : (sx * sy) ^ 2 =
        dotl (demean xs) (demean xs) * dotl (demean ys) (demean ys) := by
      rw [mul_pow, hsx, hsy, Real.sq_sqrt (dotl_self_nonneg _),
        Real.sq_sqrt (dotl_self_nonneg _)]
    rw [hmul]
    exact dotl_sq_le _ _
  have habs : |dotl (demean xs) (demean ys)| ≤ sx * sy := by
    calc |dotl (demean xs) (demean ys)|
        = Real.sqrt ((dotl (demean xs) (demean ys)) ^ 2) :=
          (Real.sqrt_sq_eq_abs _).symm
      _ ≤ Real.sqrt ((sx * sy) ^ 2) := Real.sqrt_le_sqrt hsq
      _ = |sx * sy| := Real.sqrt_sq_eq_abs _
      _ = sx * sy := abs_of_pos hpos
  constructor
  · rw [← h, le_div_iff₀ hpos]
    have hn := neg_abs_le (dotl (demean xs) (demean ys))
    linarith
  · rw [← h, div_le_one hpos]
    have hp := le_abs_self (dotl (demean xs) (demean ys))
    linarith

theorem rollingVol_length (R : List ℝ) (w : ℕ) :
    (calculate_rolling_volatility R w).length = R.length := by
  simp [calculate_rolling_volatility]

theorem rollingVol_getD (R : List ℝ) (w i : ℕ) (hi : i < R.length) :
    (calculate_rolling_volatility R w).getD i none =
      if w ≤ i + 1 then
        Option.map (fun s => s * Real.sqrt 252)
          (sampleStd ((R.take (i + 1)).drop (i + 1 - w)))
      else none := by
  unfold calculate_rolling_volatility
  rw [List.getD_eq_getElem _ _ (by simpa using hi)]
  simp

theorem rollingVol_getD_undefined (R : List ℝ) (w i : ℕ) (hi : i < R.length)
    (hw : i + 1 < w) : (calculate_rolling_volatility R w).getD i none = none := by
  rw [rollingVol_getD R w i hi, if_neg (by omega)]

theorem rollingCorr_getD (a b : List ℝ) (w i : ℕ) (hi : i < a.length) :
    (rollingCorr a b w).getD i none =
      if w ≤ i + 1 then
        pearson ((a.take (i + 1)).drop (i + 1 - w))
          ((b.take (i + 1)).drop (i + 1 - w))
      else none := by
  unfold rollingCorr
  rw [List.getD_eq_getElem _ _ (by simpa using hi)]
  simp

/-! Claim theorems. -/

/-- C1: for all real inputs, `calculate_portfolio_volatility(vol1, vol2,
corr, weight1, weight2)` returns exactly
`sqrt(weight1^2*vol1^2 + weight2^2*vol2^2 +
2*weight1*weight2*vol1*vol2*corr)`, the two-asset variance formula; the
statement quantifies over arbitrary weights (their sum is unconstrained),
so no weight validation happens inside the combiner. -/
theorem c1_portfolio_volatility_formula (vol1 vol2 corr weight1 weight2 : ℝ) :
    calculate_portfolio_volatility vol1 vol2 corr weight1 weight2 =
      Real.sqrt (weight1 ^ 2 * vol1 ^ 2 + weight2 ^ 2 * vol2 ^ 2 +
        2 * weight1 * weight2 * vol1 * vol2 * corr) := rfl

/-- C2: for every price series of length at least 2, `calculate_returns`
has length one less than the input, entry `t` is
`price[t+1]/price[t] - 1`, and the first entry is `P[1]/P[0] - 1` (the
leading date, with no predecessor, is dropped). -/
theorem c2_compute_returns {K : Type} [Field K] (P : List K)
    (h2 : 2 ≤ P.length) :
    (calculate_returns P).length = P.length - 1 ∧
    (∀ t, t + 1 < P.length →
      (calculate_returns P).getD t 0 = P.getD (t + 1) 0 / P.getD t 0 - 1) ∧
    (calculate_returns P).getD 0 0 = P.getD 1 0 / P.getD 0 0 - 1 := by
  have he := calculate_returns_eq P
  have hlen : (calculate_returns P).length = P.length - 1 := by
    rw [he]
    simp [List.length_zip, List.length_tail]
  have hmain : ∀ t, t + 1 < P.length →
      (calculate_returns P).getD t 0 = P.getD (t + 1) 0 / P.getD t 0 - 1 := by
    intro t ht
    have hb : t < ((P.zip P.tail).map
        (fun q => q.2 / q.1 - 1)).length := by
      simp [List.length_zip, List.length_tail]
      omega
    rw [he, List.getD_eq_getElem _ _ hb,
      List.getD_eq_getElem _ _ (by omega : t + 1 < P.length),
      List.getD_eq_getElem _ _ (by omega : t < P.length)]
    simp [List.getElem_zip, List.getElem_tail]
  exact ⟨hlen, hmain, hmain 0 (by omega)⟩

/-- C2 witness: the rejected spec scenario prices [100, 102, 101, 105]
yield a first return of 102/100 - 1. -/
theorem c2_compute_returns_witness :
    2 ≤ ([100, 102, 101, 105] : List ℚ).length ∧
    (calculate_returns ([100, 102, 101, 105] : List ℚ)).getD 0 0 =
      ([100, 102, 101, 105] : List ℚ).getD 1 0 /
        ([100, 102, 101, 105] : List ℚ).getD 0 0 - 1 :=
  ⟨by decide,
    (c2_compute_returns ([100, 102, 101, 105] : List ℚ) (by decide)).2.2⟩

/-- C7 counterexample: with both volatilities equal to -1 (a real input
allowed by the claim's universal quantification) and weights 1/2 + 1/2 = 1,
the combiner returns sqrt((-1)^2) = 1, not the signed value
(1/2)*(-1) + (1/2)*(-1) = -1: the claimed identity fails because the
square root returns the absolute value. -/
theorem c7_perfect_corr_counterexample :
    (1 / 2 : ℝ) + 1 / 2 = 1 ∧
    calculate_portfolio_volatility (-1) (-1) 1 (1 / 2) (1 / 2) ≠
      (1 / 2 : ℝ) * (-1) + (1 / 2) * (-1) := by
  refine ⟨by norm_num, ?_⟩
  have h0 : (0 : ℝ) ≤ calculate_portfolio_volatility (-1) (-1) 1 (1 / 2) (1 / 2) :=
    Real.sqrt_nonneg _
  intro h
  rw [h] at h0
  norm_num at h0

/-- C7 amended: with correlation exactly 1 and weights summing to 1, the
combiner returns `w1*vol1 + w2*vol2` provided that combination is
non-negative (as it always is for non-negative weights and volatilities);
in general it returns its absolute value. -/
theorem c7_perfect_corr (vol1 vol2 weight1 weight2 : ℝ)
    (hw : weight1 + weight2 = 1)
    (hnn : 0 ≤ weight1 * vol1 + weight2 * vol2) :
    calculate_portfolio_volatility vol1 vol2 1 weight1 weight2 =
      weight1 * vol1 + weight2 * vol2 := by
  unfold calculate_portfolio_volatility
  have hsq : weight1 ^ 2 * vol1 ^ 2 + weight2 ^ 2 * vol2 ^ 2 +
      2 * weight1 * weight2 * vol1 * vol2 * 1 =
        (weight1 * vol1 + weight2 * vol2) ^ 2 := by ring
  rw [hsq, Real.sqrt_sq hnn]

/-- C7 witness: volatilities 2 and 4 with weights 1/2 and 1/2 combine, at
correlation 1, to (1/2)*2 + (1/2)*4 = 3. -/
theorem c7_perfect_corr_witness :
    (1 / 2 : ℝ) + 1 / 2 = 1 ∧ (0 : ℝ) ≤ (1 / 2) * 2 + (1 / 2) * 4 ∧
    calculate_portfolio_volatility 2 4 1 (1 / 2) (1 / 2) =
      (1 / 2 : ℝ) * 2 + (1 / 2) * 4 :=
  ⟨by norm_num, by norm_num,
    c7_perfect_corr 2 4 (1 / 2) (1 / 2) (by norm_num) (by norm_num)⟩

/-- C10: for correlation in [-1, 1] the argument of the square root inside
the combiner is non-negative, so the combiner returns a well-defined
non-negative real (its square recovers the argument exactly, i.e. no NaN
can arise under this precondition). -/
theorem c10_sqrt_argument_nonneg (vol1 vol2 corr weight1 weight2 : ℝ)
    (hc1 : -1 ≤ corr) (hc2 : corr ≤ 1) :
    0 ≤ weight1 ^ 2 * vol1 ^ 2 + weight2 ^ 2 * vol2 ^ 2 +
      2 * weight1 * weight2 * vol1 * vol2 * corr ∧
    0 ≤ calculate_portfolio_volatility vol1 vol2 corr weight1 weight2 ∧
    (calculate_portfolio_volatility vol1 vol2 corr weight1 weight2) ^ 2 =
      weight1 ^ 2 * vol1 ^ 2 + weight2 ^ 2 * vol2 ^ 2 +
        2 * weight1 * weight2 * vol1 * vol2 * corr := by
  have harg : 0 ≤ weight1 ^ 2 * vol1 ^ 2 + weight2 ^ 2 * vol2 ^ 2 +
      2 * weight1 * weight2 * vol1 * vol2 * corr := by
    nlinarith [mul_nonneg (by linarith : (0 : ℝ) ≤ 1 + corr)
        (sq_nonneg (weight1 * vol1 + weight2 * vol2)),
      mul_nonneg (by linarith : (0 : ℝ) ≤ 1 - corr)
        (sq_nonneg (weight1 * vol1 - weight2 * vol2))]
  exact ⟨harg, Real.sqrt_nonneg _, Real.sq_sqrt harg⟩

/-- C10 witness: at volatilities 3 and 4, correlation 0 and weights 1 and
1, the square-root argument and the combined volatility are both
non-negative. -/
theorem c10_sqrt_argument_nonneg_witness :
    (-1 : ℝ) ≤ 0 ∧ (0 : ℝ) ≤ 1 ∧
    (0 : ℝ) ≤ (1 : ℝ) ^ 2 * 3 ^ 2 + 1 ^ 2 * 4 ^ 2 + 2 * 1 * 1 * 3 * 4 * 0 ∧
    0 ≤ calculate_portfolio_volatility 3 4 0 1 1 := by
  refine ⟨by norm_num, by norm_num, ?_, ?_⟩
  · exact (c10_sqrt_argument_nonneg 3 4 0 1 1 (by norm_num) (by norm_num)).1
  · exact (c10_sqrt_argument_nonneg 3 4 0 1 1 (by norm_num) (by norm_num)).2.1

/-- C3: the rolling volatility series is indexed like its input; at every
index with at least `window` trailing observations it is the sample
standard deviation of exactly the trailing `window` observations multiplied
by sqrt(252), and at every index with fewer trailing observations it is
undefined (`none`), not zero. -/
theorem c3_rolling_volatility (R : List ℝ) (w i : ℕ) (hi : i < R.length) :
    (calculate_rolling_volatility R w).length = R.length ∧
    (w ≤ i + 1 → (calculate_rolling_volatility R w).getD i none =
      Option.map (fun s => s * Real.sqrt 252)
        (sampleStd ((R.drop (i + 1 - w)).take w))) ∧
    (i + 1 < w → (calculate_rolling_volatility R w).getD i none = none) := by
  refine ⟨rollingVol_length R w, ?_,
    fun hw => rollingVol_getD_undefined R w i hi hw⟩
  intro hw
  rw [rollingVol_getD R w i hi, if_pos hw, List.drop_take]
  have hww : i + 1 - (i + 1 - w) = w := by omega
  rw [hww]

/-- C3 witness: on returns [1, 2, 3] with window 2, index 2 carries the
annualized standard deviation of the trailing two observations, while with
window 5 index 2 is undefined. -/
theorem c3_rolling_volatility_witness :
    2 < ([1, 2, 3] : List ℝ).length ∧ 2 ≤ 2 + 1 ∧ 2 + 1 < 5 ∧
    (calculate_rolling_volatility ([1, 2, 3] : List ℝ) 2).getD 2 none =
      Option.map (fun s => s * Real.sqrt 252)
        (sampleStd ((([1, 2, 3] : List ℝ).drop (2 + 1 - 2)).take 2)) ∧
    (calculate_rolling_volatility ([1, 2, 3] : List ℝ) 5).getD 2 none = none := by
  refine ⟨by decide, by omega, by omega, ?_, ?_⟩
  · exact (c3_rolling_volatility ([1, 2, 3] : List ℝ) 2 2 (by decide)).2.1
      (by omega)
  · exact (c3_rolling_volatility ([1, 2, 3] : List ℝ) 5 2 (by decide)).2.2
      (by omega)

/-- C4 counterexample: on three return series the source's
`calculate_rolling_correlation` evaluates to `None` — it silently returns
nothing and signals no error of any kind, contradicting the claim that an
`UnsupportedArityError` is raised. -/
theorem c4_arity_counterexample :
    calculate_rolling_correlation [[1], [1], [1]] 30 = none := rfl

/-- C4 amended: for every input of other than exactly two return series,
`calculate_rolling_correlation` silently returns `None` (no error is
signalled, no pair is picked). -/
theorem c4_arity (returns : List (List ℝ)) (w : ℕ)
    (h : returns.length ≠ 2) :
    calculate_rolling_correlation returns w = none := by
  unfold calculate_rolling_correlation
  rw [if_neg h]

/-- C4 witness: three series are not two, and the rolling-correlation
helper returns `None` on them. -/
theorem c4_arity_witness :
    ([[1], [1], [1]] : List (List ℝ)).length ≠ 2 ∧
    calculate_rolling_correlation [[1], [1], [1]] 7 = none :=
  ⟨by decide, c4_arity [[1], [1], [1]] 7 (by decide)⟩

/-- C9 counterexample: on a single-point price series the source's
`calculate_returns` evaluates to the empty series — it signals no
`InsufficientDataError` (the function has no error channel at all),
contradicting the claim that it fails for fewer than 2 price points. -/
theorem c9_insufficient_counterexample :
    ([5] : List ℚ).length < 2 ∧ calculate_returns ([5] : List ℚ) = [] := by
  exact ⟨by decide, rfl⟩

/-- C9 amended: with fewer than 2 price observations `calculate_returns`
returns the empty series (sparse output, no error and no crash), and with
fewer observations than the window every rolling-volatility entry is
undefined (`none`), not a crash. -/
theorem c9_insufficient_data {K : Type} [Field K] (P : List K)
    (R : List ℝ) (w i : ℕ) (hP : P.length < 2) (hi : i < R.length)
    (hw : R.length < w) :
    calculate_returns P = [] ∧
    (calculate_rolling_volatility R w).getD i none = none := by
  constructor
  · rw [calculate_returns_eq]
    cases P with
    | nil => rfl
    | cons p ps =>
        cases ps with
        | nil => rfl
        | cons q qs =>
            simp at hP
            omega
  · exact rollingVol_getD_undefined R w i hi (by omega)

/-- C9 witness: a one-point price series yields the empty return series,
and on two returns with window 5 the rolling volatility is undefined at
index 0. -/
theorem c9_insufficient_data_witness :
    ([5] : List ℚ).length < 2 ∧ 0 < ([1, 2] : List ℝ).length ∧
    ([1, 2] : List ℝ).length < 5 ∧
    calculate_returns ([5] : List ℚ) = [] ∧
    (calculate_rolling_volatility ([1, 2] : List ℝ) 5).getD 0 none = none := by
  refine ⟨by decide, by decide, by decide, ?_, ?_⟩
  · exact (c9_insufficient_data ([5] : List ℚ) ([1, 2] : List ℝ) 5 0
      (by decide) (by decide) (by decide)).1
  · exact (c9_insufficient_data ([5] : List ℚ) ([1, 2] : List ℝ) 5 0
      (by decide) (by decide) (by decide)).2

/-- Every entry of the task2 correlation matrix is the Pearson correlation
of the most recent `window` observations of the two columns involved. -/
theorem correlation_matrix_entry (cols : List (List ℝ)) (w i j : ℕ)
    (hi : i < cols.length) (hj : j < cols.length) :
    ((correlation_matrix cols w).getD i []).getD j none =
      pearson (pandas_tail w (cols.getD i []))
        (pandas_tail w (cols.getD j [])) := by
  have h1 : (correlation_matrix cols w).getD i [] =
      cols.map (fun y =>
        pearson (pandas_tail w (cols.getD i [])) (pandas_tail w y)) := by
    unfold correlation_matrix
    rw [List.getD_eq_getElem _ _ (by simpa using hi), List.getElem_map,
      List.getD_eq_getElem _ _ hi]
  rw [h1, List.getD_eq_getElem _ _ (by simpa using hj), List.getElem_map,
    List.getD_eq_getElem _ _ hj]

/-- The centered dot product of the series [0, 1] with itself is 1/2, in
particular nonzero (used below as a concrete nonzero-variance input). -/
theorem dotl_demean_01 :
    dotl (demean [(0 : ℝ), 1]) (demean [(0 : ℝ), 1]) = 1 / 2 := by
  norm_num [demean, dotl]

/-- C5 counterexample: with a constant first column ([1, 1]) the divisor of
the Pearson coefficient vanishes, so pandas produces `NaN` (modelled as
`none`) on the diagonal: `M[0][0]` is not 1.0, refuting the claim that the
diagonal is exactly 1.0 for every collection of return series. -/
theorem c5_matrix_counterexample :
    ((correlation_matrix [[1, 1], [1, 2]] 30).getD 0 []).getD 0 none ≠
      some 1 := by
  have he : ((correlation_matrix [[1, 1], [1, 2]] 30).getD 0 []).getD 0 none =
      pearson [1, 1] [1, 1] := by
    rw [correlation_matrix_entry [[1, 1], [1, 2]] 30 0 0 (by decide)
      (by decide)]
    rfl
  rw [he]
  have hdm : demean [(1 : ℝ), 1] = [0, 0] := by norm_num [demean]
  have hd : dotl [(0 : ℝ), 0] [0, 0] = 0 := by norm_num [dotl]
  unfold pearson
  rw [hdm, hd, Real.sqrt_zero, if_pos (by norm_num)]
  simp

/-- C5 amended: every entry of the task2 matrix is the Pearson correlation
of the most recent `window` observations (truncated without error when
fewer are available), the matrix is symmetric, and the diagonal entry is
exactly 1.0 for every column whose trailing window is not constant
(nonzero centered dot product); for a constant column the diagonal entry
is undefined (`NaN`), not 1.0. -/
theorem c5_matrix (cols : List (List ℝ)) (w i j : ℕ)
    (hi : i < cols.length) (hj : j < cols.length) :
    ((correlation_matrix cols w).getD i []).getD j none =
      pearson (pandas_tail w (cols.getD i []))
        (pandas_tail w (cols.getD j [])) ∧
    ((correlation_matrix cols w).getD i []).getD j none =
      ((correlation_matrix cols w).getD j []).getD i none ∧
    (dotl (demean (pandas_tail w (cols.getD i [])))
        (demean (pandas_tail w (cols.getD i []))) ≠ 0 →
      ((correlation_matrix cols w).getD i []).getD i none = some 1) := by
  refine ⟨correlation_matrix_entry cols w i j hi hj, ?_, ?_⟩
  · rw [correlation_matrix_entry cols w i j hi hj,
      correlation_matrix_entry cols w j i hj hi, pearson_comm]
  · intro hvar
    rw [correlation_matrix_entry cols w i i hi hi]
    exact pearson_self _ hvar

/-- C5 witness: on the two identical non-constant columns [0, 1], the
off-diagonal entries agree (symmetry) and the first diagonal entry is
exactly 1. -/
theorem c5_matrix_witness :
    ((correlation_matrix [[0, 1], [0, 1]] 30).getD 0 []).getD 1 none =
      ((correlation_matrix [[0, 1], [0, 1]] 30).getD 1 []).getD 0 none ∧
    ((correlation_matrix [[0, 1], [0, 1]] 30).getD 0 []).getD 0 none =
      some 1 := by
  have h := c5_matrix [[0, 1], [0, 1]] 30 0 1 (by decide) (by decide)
  refine ⟨h.2.1, h.2.2 ?_⟩
  have hp : pandas_tail 30 (([[0, 1], [0, 1]] : List (List ℝ)).getD 0 []) =
      [0, 1] := rfl
  rw [hp, dotl_demean_01]
  norm_num

/-- C6: every defined value of the rolling correlation of two return
series lies in the closed interval [-1, 1]. -/
theorem c6_rolling_corr_bounds (a b : List ℝ) (w i : ℕ) (c : ℝ)
    (h : (rollingCorr a b w).getD i none = some c) : -1 ≤ c ∧ c ≤ 1 := by
  by_cases hi : i < a.length
  · rw [rollingCorr_getD a b w i hi] at h
    split_ifs at h with hw
    exact pearson_bounds _ _ c h
  · have hlen : (rollingCorr a b w).length ≤ i := by
      simp [rollingCorr]
      omega
    rw [List.getD_eq_default _ _ hlen] at h
    exact absurd h (by simp)

/-- C6 witness: on the aligned series [0, 1] and [0, 1] with window 2 the
rolling correlation at index 1 is defined and equal to 1, which lies in
[-1, 1]. -/
theorem c6_rolling_corr_bounds_witness :
    (rollingCorr [0, 1] [0, 1] 2).getD 1 none = some 1 ∧
    (-1 ≤ (1 : ℝ) ∧ (1 : ℝ) ≤ 1) := by
  have hsome : (rollingCorr [0, 1] [0, 1] 2).getD 1 none = some 1 := by
    rw [rollingCorr_getD [0, 1] [0, 1] 2 1 (by decide), if_pos (by omega)]
    have hs : (([0, 1] : List ℝ).take (1 + 1)).drop (1 + 1 - 2) = [0, 1] := rfl
    rw [hs]
    refine pearson_self [0, 1] ?_
    rw [dotl_demean_01]
    norm_num
  exact ⟨hsome, c6_rolling_corr_bounds [0, 1] [0, 1] 2 1 1 hsome⟩

/-- C8: `task1` rejects with a validation error exactly when the two
percentage weights fail to sum to 100 within 0.01, and `task2` rejects
exactly when the symbol count is outside [2, 10]; in the rejecting cases
the outcome is `validationError` for every possible fetch behaviour (so no
fetch can influence, or happen before, the rejection), and within bounds
the task proceeds past validation to the fetch. -/
theorem c8_validation (weight1_input weight2_input : ℚ)
    (tickers : List String) {β α : Type}
    (fetch : Unit → Except String β) (rest : β → α) :
    (|weight1_input + weight2_input - 100| > 1 / 100 →
      task1_run weight1_input weight2_input fetch rest =
        TaskOutcome.validationError) ∧
    (|weight1_input + weight2_input - 100| ≤ 1 / 100 →
      task1_run weight1_input weight2_input fetch rest =
        match fetch () with
        | .error _ => TaskOutcome.fetchFailed
        | .ok prices => TaskOutcome.completed (rest prices)) ∧
    (10 < tickers.length ∨ tickers.length < 2 →
      task2_run tickers fetch rest = TaskOutcome.validationError) ∧
    (2 ≤ tickers.length ∧ tickers.length ≤ 10 →
      task2_run tickers fetch rest =
        match fetch () with
        | .error _ => TaskOutcome.fetchFailed
        | .ok prices => TaskOutcome.completed (rest prices)) := by
  refine ⟨?_, ?_, ?_, ?_⟩
  · intro h
    unfold task1_run
    rw [if_pos h]
  · intro h
    unfold task1_run
    rw [if_neg (by linarith)]
  · intro h
    unfold task2_run
    rcases h with h | h
    · rw [if_pos (by omega)]
    · by_cases h10 : tickers.length > 10
      · rw [if_pos h10]
      · rw [if_neg h10, if_pos (by omega)]
  · intro h
    unfold task2_run
    rw [if_neg (by omega), if_neg (by omega)]

/-- C8 witness: the spec scenarios — weights 60 and 41 (sum 101) are
rejected before any fetch, 11 symbols are rejected before any fetch, and
weights 60 and 40 with 2 symbols pass validation and reach the fetch. -/
theorem c8_validation_witness :
    |(60 : ℚ) + 41 - 100| > 1 / 100 ∧
    @task1_run Unit Unit 60 41 (fun _ => Except.error "net") (fun _ => ()) =
      TaskOutcome.validationError ∧
    @task2_run Unit Unit ["A", "B", "C", "D", "E", "F", "G", "H", "I", "J", "K"]
      (fun _ => Except.error "net") (fun _ => ()) =
      TaskOutcome.validationError ∧
    @task1_run Unit Unit 60 40 (fun _ => Except.ok ()) (fun _ => ()) =
      TaskOutcome.completed () := by
  refine ⟨by norm_num, ?_, ?_, ?_⟩
  · exact (c8_validation 60 41 [] (fun _ => Except.error "net")
      (fun _ => ())).1 (by norm_num)
  · exact (c8_validation 60 41
      ["A", "B", "C", "D", "E", "F", "G", "H", "I", "J", "K"]
      (fun _ => Except.error "net") (fun _ => ())).2.2.1 (by decide)
  · exact (c8_validation 60 40 [] (fun _ => Except.ok ())
      (fun _ => ())).2.1 (by norm_num)

end StockCorrelation
